import Mathlib

/-!
Shallow embedding of the NOTAM/weather classification core of the
Design-of-Weather-Services repository (backend-python-nlp/nlp), together
with theorems settling the frozen claims about it.

Sources embedded:
  * nlp/notam_parser.py   (class NOTAMParser)
  * nlp/summary_model.py  (class WeatherSummarizer: assess_flight_conditions,
                           categorize_weather_conditions, and the
                           flight-category fragment of
                           _enhanced_pilot_metar_summary)

Modelling conventions:
  * Python `str` is Lean `String` (all inputs of interest are ASCII, so
    `str.lower`/`str.upper` are the ASCII `Char.toLower`/`Char.toUpper`).
  * Each `re` pattern used by the source is embedded as a dedicated scanner
    over `List Char` with Python `re.search`/`finditer` semantics
    (leftmost match, greedy quantifiers, alternation tried left to right).
  * Python exceptions are `Except PyError`; a raised-and-caught exception
    becomes an `Except.error` consumed by the embedding of the handler.
  * `datetime.utcnow()` is an explicit `now : String` parameter.
  * CPython float arithmetic in coordinate conversion is modelled with `Rat`
    (exact rationals); no claim depends on rounding.
-/

namespace WeatherServices

/-- Python exception values that the embedded code can raise. -/
inductive PyError where
  | valueError (msg : String)
  | typeError (msg : String)
  | attributeError (msg : String)
deriving DecidableEq, Repr

/-- Render an exception the way Python `str(e)` does in the source's
`'error': str(e)` fields. -/
def PyError.toMessage : PyError → String
  | .valueError m => m
  | .typeError m => m
  | .attributeError m => m

/-! ## Python string primitives -/

/-- Python `str.lower()` (ASCII range; all repository inputs are ASCII). -/
def pyLower (s : String) : String := ⟨s.data.map Char.toLower⟩

/-- Python `str.upper()` (ASCII range). -/
def pyUpper (s : String) : String := ⟨s.data.map Char.toUpper⟩

/-- Python's `\d` character class (ASCII digits for the inputs concerned). -/
def isDigitC (c : Char) : Bool := c.isDigit

/-- Character class `[A-Z]`. -/
def isUpperAZ (c : Char) : Bool := 'A' ≤ c && c ≤ 'Z'

/-- Character class `[lrcLRC]` from the runway-designator patterns. -/
def isLRC (c : Char) : Bool :=
  c == 'l' || c == 'r' || c == 'c' || c == 'L' || c == 'R' || c == 'C'

/-- Python's `\s` class: space, tab, newline, carriage return, form feed,
vertical tab. -/
def isSpaceC (c : Char) : Bool :=
  c == ' ' || c == '\t' || c == '\n' || c == '\r' || c.val == 11 || c.val == 12

/-- Python's `\w` class (ASCII fragment): letters, digits, underscore. -/
def isWordC (c : Char) : Bool := c.isAlphanum || c == '_'

/-- Python `str.strip()`: remove leading and trailing whitespace. -/
def pyStrip (s : String) : String :=
  ⟨(s.data.dropWhile isSpaceC).reverse.dropWhile isSpaceC |>.reverse⟩

/-- Python slice `s[:n]` (character based). -/
def pyTake (s : String) (n : Nat) : String := ⟨s.data.take n⟩

/-- Python `len(s)` for strings. -/
def pyLen (s : String) : Nat := s.data.length

/-- Python `int(s)` restricted to the all-digit captures produced by the
`\d…` regex groups of the source; on any other shape it raises `ValueError`
exactly like CPython `int`. -/
def pyInt (s : String) : Except PyError Nat :=
  if s.data ≠ [] ∧ s.data.all isDigitC then
    .ok (s.data.foldl (fun acc c => acc * 10 + (c.toNat - '0'.toNat)) 0)
  else
    .error (.valueError ("invalid literal for int() with base 10: " ++ s))

/-! ## Regex scanner primitives

A matcher consumes a suffix of the subject and returns the captured value
together with the unconsumed rest; `searchO` scans positions left to right
(Python `re.search`), `searchLastO` right to left (used for a greedy `.*`
that pushes a trailing group as far right as possible). -/

/-- Consume an exact literal. -/
def eatLit (lit : List Char) (s : List Char) : Option (List Char) :=
  if lit.isPrefixOf s then some (s.drop lit.length) else none

/-- Consume exactly `n` characters of class `p`, returning them. -/
def eatN (p : Char → Bool) : Nat → List Char → Option (List Char × List Char)
  | 0, s => some ([], s)
  | _ + 1, [] => none
  | n + 1, c :: t =>
    if p c then (eatN p n t).map (fun m => (c :: m.1, m.2)) else none

/-- Consume one character of class `p`. -/
def eatC (p : Char → Bool) : List Char → Option (Char × List Char)
  | [] => none
  | c :: t => if p c then some (c, t) else none

/-- Greedily consume a (possibly empty) run of class `p`, returning it;
used for `\s*` and for `\d+` followed by a non-`p` token. -/
def eatRun (p : Char → Bool) (s : List Char) : List Char × List Char :=
  (s.takeWhile p, s.dropWhile p)

/-- Python `re.search`: try the matcher at every position, leftmost first. -/
def searchO {α : Type} (f : List Char → Option α) : List Char → Option α
  | [] => f []
  | c :: t =>
    match f (c :: t) with
    | some a => some a
    | none => searchO f t

/-- Rightmost-position match, for subpatterns preceded by a greedy `.*`. -/
def searchLastO {α : Type} (f : List Char → Option α) : List Char → Option α
  | [] => f []
  | c :: t =>
    match searchLastO f t with
    | some a => some a
    | none => f (c :: t)

/-- One step of Python `re.finditer`: at absolute position `pos`, emit
`(start, consumed, capture)` for each non-overlapping match, resuming at
the end of the previous match.  `fuel` bounds the recursion (every step
either consumes a character or spends fuel). -/
def findIterAux {α : Type} (f : List Char → Option (α × List Char)) :
    Nat → List Char → Nat → List (Nat × Nat × α)
  | 0, _, _ => []
  | _ + 1, [], _ => []
  | fuel + 1, c :: t, pos =>
    match f (c :: t) with
    | some (a, rest) =>
      let k := (c :: t).length - rest.length
      (pos, k, a) :: findIterAux f fuel rest (pos + k)
    | none => findIterAux f fuel t (pos + 1)

/-- Python `re.finditer` over a whole subject. -/
def findIter {α : Type} (f : List Char → Option (α × List Char))
    (s : List Char) : List (Nat × Nat × α) :=
  findIterAux f (s.length + 1) s 0

/-- Python `needle in hay` on strings. -/
def sub (needle hay : String) : Bool :=
  (searchO (eatLit needle.data) hay.data).isSome

/-- Value of an all-digit capture (`int` on a `\d…` regex group cannot
fail). -/
def natOfDigits (s : String) : Nat :=
  s.data.foldl (fun acc c => acc * 10 + (c.toNat - '0'.toNat)) 0

/-- Chained-literal pattern `lit₁.*lit₂.*…` as used throughout the severity
and impact tables: does the subject contain the literals in order?  Taking
each literal's leftmost occurrence is complete for such patterns. -/
def seqMatch (parts : List String) (s : String) : Bool :=
  go (parts.map String.data) s.data
where
  /-- Walk the literals left to right through the subject. -/
  go : List (List Char) → List Char → Bool
  | [], _ => true
  | p :: ps, l =>
    match searchO (fun suf => (eatLit p suf).map fun rest => rest) l with
    | some rest => go ps rest
    | none => false

/-! ## Data model of `NOTAMParser.parse` results -/

/-- One entry of `affected_facilities` (notam_parser.py, `_extract_facilities`). -/
structure Facility where
  type : String
  identifier : String
  context : String
deriving DecidableEq, Repr

/-- Result of `_extract_time_information`. -/
structure TimeInfo where
  effective_from : Option String
  effective_until : Option String
  daily_times : Option (String × String)
  is_permanent : Bool
  is_temporary : Bool
deriving DecidableEq, Repr

/-- Result of `_extract_location` (`area_description` is never assigned). -/
structure LocationInfo where
  coordinates : Option String
  radius : Option String
  area_description : Option String
deriving DecidableEq, Repr

/-- Result of `_analyze_impact` (`flight_operations` is never appended to). -/
structure ImpactInfo where
  type : String
  severity_score : Nat
  flight_operations : List String
  affected_phases : List String
deriving DecidableEq, Repr

/-- Result of `_extract_coordinates`; CPython float degrees are modelled as
exact rationals. -/
structure Coordinates where
  latitude : Rat
  longitude : Rat
deriving DecidableEq, Repr

/-- Result of `_extract_altitudes` (`surface_to` is never assigned). -/
structure Altitudes where
  surface_to : Option Nat
  flight_levels : List Nat
  restrictions : List Nat
deriving DecidableEq, Repr

/-- Result of `_assess_flight_impact`. -/
structure FlightImpact where
  overall_impact : String
  affected_operations : List String
  pilot_action_required : Bool
  alternate_procedures : Bool
  go_no_go_factor : Bool
deriving DecidableEq, Repr

/-- The full record returned by `NOTAMParser.parse` on the success path.
`sequence_number` is the key `parse_multiple` adds afterwards (absent =
`none`). -/
structure FullNotam where
  raw_text : String
  airport_code : Option String
  airport : Option String
  parsed_at : String
  notam_id : Option String
  severity : String
  category : String
  type : String
  affected_facilities : List Facility
  time_info : TimeInfo
  location : LocationInfo
  impact : ImpactInfo
  description : String
  keywords : List String
  coordinates : Option Coordinates
  altitudes : Altitudes
  effective_from : Option String
  effective_until : Option String
  flight_impact : FlightImpact
  sequence_number : Option Nat
deriving DecidableEq, Repr

/-- The minimal record returned by the `except` arm of `parse`. -/
structure DegradedNotam where
  raw_text : String
  error : String
  parsed_at : String
  severity : String
  category : String
  description : String
  sequence_number : Option Nat
deriving DecidableEq, Repr

/-- A `parse` result is one of the two record shapes. -/
inductive ParseOutcome where
  | full : FullNotam → ParseOutcome
  | degraded : DegradedNotam → ParseOutcome
deriving DecidableEq, Repr

/-- The `severity` field of either record shape. -/
def ParseOutcome.severityOf : ParseOutcome → String
  | .full f => f.severity
  | .degraded d => d.severity

/-- The `error` field: present on degraded records only. -/
def ParseOutcome.errorOf : ParseOutcome → Option String
  | .full _ => none
  | .degraded d => some d.error

/-- The `sequence_number` field of either record shape. -/
def ParseOutcome.sequenceOf : ParseOutcome → Option Nat
  | .full f => f.sequence_number
  | .degraded d => d.sequence_number

/-- Erase the wall-clock `parsed_at` field (both record shapes). -/
def ParseOutcome.stripTime : ParseOutcome → ParseOutcome
  | .full f => .full { f with parsed_at := "" }
  | .degraded d => .degraded { d with parsed_at := "" }

/-- The `parsed_at` field of either record shape. -/
def ParseOutcome.parsedAtOf : ParseOutcome → String
  | .full f => f.parsed_at
  | .degraded d => d.parsed_at

/-- The `notam_id` field: present on full records only. -/
def ParseOutcome.notamIdOf : ParseOutcome → Option String
  | .full f => f.notam_id
  | .degraded _ => none

/-- The `airport_code` field: present on full records only. -/
def ParseOutcome.airportCodeOf : ParseOutcome → Option String
  | .full f => f.airport_code
  | .degraded _ => none

/-- The `category` field of either record shape. -/
def ParseOutcome.categoryOf : ParseOutcome → String
  | .full f => f.category
  | .degraded d => d.category

/-- The `flight_impact.go_no_go_factor` field: present on full records
only. -/
def ParseOutcome.goNoGoOf : ParseOutcome → Option Bool
  | .full f => some f.flight_impact.go_no_go_factor
  | .degraded _ => none

namespace NOTAMParser

/-! ## `_extract_notam_id` -/

/-- Character class `[nNsS]`. -/
def isNS (c : Char) : Bool := c == 'n' || c == 'N' || c == 's' || c == 'S'

/-- Character class `[eEwW]`. -/
def isEW (c : Char) : Bool := c == 'e' || c == 'E' || c == 'w' || c == 'W'

/-- Group `([A-Z]\d{4}/\d{2})`. -/
def idGroupA (s : List Char) : Option (String × List Char) := do
  let (c, r1) ← eatC isUpperAZ s
  let (d4, r2) ← eatN isDigitC 4 r1
  let r3 ← eatLit ['/'] r2
  let (d2, r4) ← eatN isDigitC 2 r3
  some (⟨c :: d4 ++ '/' :: d2⟩, r4)

/-- Group `([A-Z]{4}\d{4})`. -/
def idGroupB (s : List Char) : Option (String × List Char) := do
  let (l4, r1) ← eatN isUpperAZ 4 s
  let (d4, r2) ← eatN isDigitC 4 r1
  some (⟨l4 ++ d4⟩, r2)

/-- Pattern `notam\s*([A-Z]\d{4}/\d{2})`.  The subject is `text.upper()`, so
the lower-case literal `notam` (kept exactly as in the source) can never
match there. -/
def idPat1 (s : List Char) : Option String := do
  let r1 ← eatLit "notam".data s
  let (g, _) ← idGroupA (eatRun isSpaceC r1).2
  some g

/-- Pattern `([A-Z]\d{4}/\d{2})`. -/
def idPat2 (s : List Char) : Option String := (idGroupA s).map (·.1)

/-- Pattern `notam\s*([A-Z]{4}\d{4})`. -/
def idPat3 (s : List Char) : Option String := do
  let r1 ← eatLit "notam".data s
  let (g, _) ← idGroupB (eatRun isSpaceC r1).2
  some g

/-- Pattern `([A-Z]{4}\d{4})`. -/
def idPat4 (s : List Char) : Option String := (idGroupB s).map (·.1)

/-- `NOTAMParser._extract_notam_id`: first pattern (in order) with a search
hit on the upper-cased text wins. -/
def extract_notam_id (text : String) : Option String :=
  let u := (pyUpper text).data
  (searchO idPat1 u) <|> (searchO idPat2 u) <|> (searchO idPat3 u) <|>
    (searchO idPat4 u)

/-! ## `_extract_airport_code` -/

/-- Pattern `lit\s*([A-Z]{4})` for the `A)` / `Q)` section codes. -/
def airportAfter (lit : String) (s : List Char) : Option String := do
  let r1 ← eatLit lit.data s
  let (l4, _) ← eatN isUpperAZ 4 (eatRun isSpaceC r1).2
  some ⟨l4⟩

/-- Pattern `\b([A-Z]{4})\b`: four upper-case letters with a word boundary on
each side; `prev` is the character before the current position. -/
def icaoWordScan : Option Char → List Char → Option String
  | _, [] => none
  | prev, c :: t =>
    let boundaryBefore := match prev with
      | none => true
      | some p => !isWordC p
    match (if boundaryBefore then eatN isUpperAZ 4 (c :: t) else none) with
    | some (l4, rest) =>
      if (match rest with | [] => true | r :: _ => !isWordC r) then some ⟨l4⟩
      else icaoWordScan (some c) t
    | none => icaoWordScan (some c) t

/-- `NOTAMParser._extract_airport_code`. -/
def extract_airport_code (text : String) : Option String :=
  if text.data = [] then none
  else
    let u := (pyUpper text).data
    (searchO (airportAfter "A)") u) <|> (searchO (airportAfter "Q)") u) <|>
      icaoWordScan none u

/-! ## `_classify_severity` and `_determine_category` -/

/-- The `severity_patterns` table, each regex `a.*b.*…` as its literal
chain. -/
def severity_patterns : List (String × List (List String)) :=
  [("high",
    [["runway", "closed"], ["airport", "closed"], ["approach", "not", "available"],
     ["ils", "out", "of", "service"], ["tower", "closed"],
     ["fuel", "not", "available"], ["emergency", "only"],
     ["military", "operation"], ["danger", "area", "active"],
     ["restricted", "area", "active"]]),
   ("medium",
    [["taxiway", "closed"], ["parking", "restricted"],
     ["lighting", "out", "of", "service"], ["navaid", "unreliable"],
     ["frequency", "change"], ["construction", "work"],
     ["obstacle", "installed"], ["bird", "activity"]]),
   ("low",
    [["chart", "change"], ["aerodrome", "information"], ["pilots", "advised"],
     ["information", "only"], ["frequency", "available"],
     ["contact", "information"]])]

/-- Number of patterns of one severity tier matching the lowered text
(`severity_scores` in the source). -/
def severityHits (level : String) (tl : String) : Nat :=
  match severity_patterns.find? (fun p => p.1 == level) with
  | some p => p.2.countP (fun pat => seqMatch pat tl)
  | none => 0

/-- `NOTAMParser._classify_severity`. -/
def classify_severity (text : String) : String :=
  let tl := pyLower text
  if severityHits "high" tl > 0 then "high"
  else if severityHits "medium" tl > 0 then "medium"
  else if severityHits "low" tl > 0 then "low"
  else "medium"

/-- The `categories` keyword table of `_determine_category`, in the source's
(insertion) order. -/
def categoriesTable : List (String × List String) :=
  [("runway", ["runway", "rwy"]),
   ("taxiway", ["taxiway", "twy"]),
   ("approach", ["approach", "app", "ils", "vor", "rnav"]),
   ("navigation", ["navaid", "vor", "ndb", "dme", "vortac"]),
   ("lighting", ["light", "lighting", "beacon"]),
   ("airspace", ["airspace", "restricted", "danger", "prohibited"]),
   ("obstacle", ["obstacle", "obstruction", "crane", "tower"]),
   ("service", ["fuel", "service", "maintenance", "closed"]),
   ("frequency", ["frequency", "freq", "radio"]),
   ("other", [])]

/-- `NOTAMParser._determine_category`: first category whose keyword occurs in
the lowered text. -/
def determine_category (text : String) : String :=
  let tl := pyLower text
  match categoriesTable.find? (fun c => c.2.any (fun k => sub k tl)) with
  | some c => c.1
  | none => "other"

/-! ## `_extract_facilities` -/

/-- Python slice `s[a:b]` (indices already clamped like Python's). -/
def pySlice (s : String) (a b : Nat) : String := ⟨(s.data.take b).drop a⟩

/-- Group `(\d{2}[lrcLRC]?)`: two digits plus an optional designator. -/
def rwyNumGroup (s : List Char) : Option (String × List Char) := do
  let (d2, r1) ← eatN isDigitC 2 s
  match eatC isLRC r1 with
  | some (c, r2) => some (⟨d2 ++ [c]⟩, r2)
  | none => some (⟨d2⟩, r1)

/-- Optional tail `(?:\s*(?:left|right|center|centre))?` of the third runway
pattern: consumed greedily when a side word follows, otherwise nothing. -/
def optSideWord (s : List Char) : List Char :=
  let r := (eatRun isSpaceC s).2
  match eatLit "left".data r with
  | some r' => r'
  | none =>
    match eatLit "right".data r with
    | some r' => r'
    | none =>
      match eatLit "center".data r with
      | some r' => r'
      | none =>
        match eatLit "centre".data r with
        | some r' => r'
        | none => s

/-- Pattern `lit\s*(\d{2}[lrcLRC]?)` (`rwy`, `runway`). -/
def facLitNum (lit : String) (s : List Char) : Option (String × List Char) := do
  let r1 ← eatLit lit.data s
  rwyNumGroup (eatRun isSpaceC r1).2

/-- Pattern `(\d{2}[lrcLRC]?)(?:\s*(?:left|right|center|centre))?`. -/
def facBareNum (s : List Char) : Option (String × List Char) := do
  let (g, r1) ← rwyNumGroup s
  some (g, optSideWord r1)

/-- Group `([A-Z]\d?)` of the taxiway patterns. -/
def twyGroup (s : List Char) : Option (String × List Char) := do
  let (c, r1) ← eatC isUpperAZ s
  match eatC isDigitC r1 with
  | some (d, r2) => some (⟨[c, d]⟩, r2)
  | none => some (⟨[c]⟩, r1)

/-- Pattern `lit\s*([A-Z]\d?)` (`twy`, `taxiway`).  The subject is
`text.lower()`, where `[A-Z]` can never match; kept as written. -/
def facLitTwy (lit : String) (s : List Char) : Option (String × List Char) := do
  let r1 ← eatLit lit.data s
  twyGroup (eatRun isSpaceC r1).2

/-- Pattern `taxi.*([A-Z]\d?)`: the greedy `.*` places the group at the
rightmost possible position. -/
def facTaxiAny (s : List Char) : Option (String × List Char) := do
  let r1 ← eatLit "taxi".data s
  searchLastO twyGroup r1

/-- Pattern `lit\s*rwy\s*(\d{2}[lrcLRC]?)` (`ils`, `vor`, `rnav`, `app`). -/
def facAppRwy (lit : String) (s : List Char) : Option (String × List Char) := do
  let r1 ← eatLit lit.data s
  let r2 ← eatLit "rwy".data (eatRun isSpaceC r1).2
  rwyNumGroup (eatRun isSpaceC r2).2

/-- Pattern `lit\s*([A-Z]{3})` (`vor`, `vortac`, `ndb`, `dme`). -/
def facNav (lit : String) (s : List Char) : Option (String × List Char) := do
  let r1 ← eatLit lit.data s
  let (l3, r2) ← eatN isUpperAZ 3 (eatRun isSpaceC r1).2
  some (⟨l3⟩, r2)

/-- Group `(\d{3}\.\d{2,3})`: the greedy `{2,3}` takes a third digit when
present (no later token can force backtracking to two, see the two call
sites). -/
def freqGroup (s : List Char) : Option (String × List Char) := do
  let (d3, r1) ← eatN isDigitC 3 s
  let r2 ← eatLit ['.'] r1
  match eatN isDigitC 3 r2 with
  | some (d, r3) => some (⟨d3 ++ '.' :: d⟩, r3)
  | none => do
    let (d, r3) ← eatN isDigitC 2 r2
    some (⟨d3 ++ '.' :: d⟩, r3)

/-- Pattern `lit\s*(\d{3}\.\d{2,3})` (`freq`, `frequency`). -/
def facFreqLit (lit : String) (s : List Char) : Option (String × List Char) := do
  let r1 ← eatLit lit.data s
  freqGroup (eatRun isSpaceC r1).2

/-- Pattern `(\d{3}\.\d{2,3})\s*mhz`. -/
def facFreqMhz (s : List Char) : Option (String × List Char) := do
  let (g, r1) ← freqGroup s
  let r2 ← eatLit "mhz".data (eatRun isSpaceC r1).2
  some (g, r2)

/-- The `facility_patterns` table as (facility type, matcher list), in source
order. -/
def facility_patterns :
    List (String × List (List Char → Option (String × List Char))) :=
  [("runway", [facLitNum "rwy", facLitNum "runway", facBareNum]),
   ("taxiway", [facLitTwy "twy", facLitTwy "taxiway", facTaxiAny]),
   ("approach", [facAppRwy "ils", facAppRwy "vor", facAppRwy "rnav",
                 facAppRwy "app"]),
   ("navaid", [facNav "vor", facNav "vortac", facNav "ndb", facNav "dme"]),
   ("frequency", [facFreqLit "freq", facFreqLit "frequency", facFreqMhz])]

/-- `NOTAMParser._extract_facilities`: every `finditer` hit of every pattern,
with a ±20-character stripped context snippet from the original text. -/
def extract_facilities (text : String) : List Facility :=
  let tl := (pyLower text).data
  facility_patterns.foldl
    (fun acc fp =>
      acc ++ fp.2.foldl
        (fun acc2 pat =>
          acc2 ++ (findIter pat tl).map (fun m =>
            { type := fp.1, identifier := m.2.2,
              context := pyStrip (pySlice text (m.1 - 20) (m.1 + m.2.1 + 20)) }))
        [])
    []

/-! ## `_extract_time_information` and `_parse_notam_datetime` -/

/-- Group `(\d{10})`. -/
def d10Group (s : List Char) : Option (String × List Char) :=
  (eatN isDigitC 10 s).map fun m => (⟨m.1⟩, m.2)

/-- Group `(\d{4})`. -/
def d4Group (s : List Char) : Option (String × List Char) :=
  (eatN isDigitC 4 s).map fun m => (⟨m.1⟩, m.2)

/-- Pattern `lit\s*(\d{10})` (`fm`, `effective`, `til`, `until`). -/
def timeLit (lit : String) (s : List Char) : Option String := do
  let r1 ← eatLit lit.data s
  let (g, _) ← d10Group (eatRun isSpaceC r1).2
  some g

/-- Pattern `(\d{10})\s*lit` (`utc`, `est`). -/
def timeSuffix (lit : String) (s : List Char) : Option String := do
  let (g, r1) ← d10Group s
  let _ ← eatLit lit.data (eatRun isSpaceC r1).2
  some g

/-- Pattern `daily\s*(\d{4})-(\d{4})`. -/
def dailyPat1 (s : List Char) : Option (String × String) := do
  let r1 ← eatLit "daily".data s
  let (g1, r2) ← d4Group (eatRun isSpaceC r1).2
  let r3 ← eatLit ['-'] r2
  let (g2, _) ← d4Group r3
  some (g1, g2)

/-- Pattern `(\d{4})-(\d{4})\s*daily`. -/
def dailyPat2 (s : List Char) : Option (String × String) := do
  let (g1, r1) ← d4Group s
  let r2 ← eatLit ['-'] r1
  let (g2, r3) ← d4Group r2
  let _ ← eatLit "daily".data (eatRun isSpaceC r3).2
  some (g1, g2)

/-- Gregorian leap year, as `datetime` validates it. -/
def isLeap (y : Nat) : Bool := y % 4 == 0 && (y % 100 != 0 || y % 400 == 0)

/-- Day count of a month, as `datetime` validates it. -/
def daysInMonth (y m : Nat) : Nat :=
  if m == 2 then (if isLeap y then 29 else 28)
  else if m == 4 || m == 6 || m == 9 || m == 11 then 30
  else 31

/-- Zero-padded two-digit rendering used by `datetime.isoformat`. -/
def pad2 (n : Nat) : String := if n < 10 then "0" ++ toString n else toString n

/-- `NOTAMParser._parse_notam_datetime`: YYMMDDhhmm → ISO-8601 with the year
mapped to 2000+YY; `int` failures and `datetime` range errors are the caught
`ValueError`s and yield `none`. -/
def parse_notam_datetime (ds : String) : Option String :=
  if pyLen ds == 10 then
    match pyInt (pySlice ds 0 2), pyInt (pySlice ds 2 4), pyInt (pySlice ds 4 6),
        pyInt (pySlice ds 6 8), pyInt (pySlice ds 8 10) with
    | .ok yy, .ok mm, .ok dd, .ok hh, .ok mi =>
      let year := 2000 + yy
      if 1 ≤ mm ∧ mm ≤ 12 ∧ 1 ≤ dd ∧ dd ≤ daysInMonth year mm ∧ hh ≤ 23 ∧
          mi ≤ 59 then
        some (toString year ++ "-" ++ pad2 mm ++ "-" ++ pad2 dd ++ "T" ++
          pad2 hh ++ ":" ++ pad2 mi ++ ":00Z")
      else none
    | _, _, _, _, _ => none
  else none

/-- `NOTAMParser._extract_time_information`: the source loops over all
patterns of each role without breaking, so a later matching pattern
overwrites the field (including with `None` when the captured date is
invalid). -/
def extract_time_information (text : String) : TimeInfo :=
  let tl := (pyLower text).data
  let perm := sub "perm" (pyLower text) || sub "permanent" (pyLower text)
  let ef : Option String := none
  let ef := match searchO (timeLit "fm") tl with
    | some g => parse_notam_datetime g
    | none => ef
  let ef := match searchO (timeLit "effective") tl with
    | some g => parse_notam_datetime g
    | none => ef
  let ef := match searchO (timeSuffix "utc") tl with
    | some g => parse_notam_datetime g
    | none => ef
  let eu : Option String := none
  let eu := match searchO (timeLit "til") tl with
    | some g => parse_notam_datetime g
    | none => eu
  let eu := match searchO (timeLit "until") tl with
    | some g => parse_notam_datetime g
    | none => eu
  let eu := match searchO (timeSuffix "est") tl with
    | some g => parse_notam_datetime g
    | none => eu
  let dt : Option (String × String) := none
  let dt := match searchO dailyPat1 tl with
    | some p => some p
    | none => dt
  let dt := match searchO dailyPat2 tl with
    | some p => some p
    | none => dt
  { effective_from := ef, effective_until := eu, daily_times := dt,
    is_permanent := perm, is_temporary := !perm }

/-! ## `_extract_location` and `_extract_coordinates` -/

/-- Wrap a rest-returning matcher so it yields `match.group(0)`. -/
def withMatched (f : List Char → Option (List Char)) (s : List Char) :
    Option String :=
  (f s).map fun rest => ⟨s.take (s.length - rest.length)⟩

/-- Location pattern
`(\d{2})\s*(\d{2})\s*(\d{2})[nNsS]\s*(\d{3})\s*(\d{2})\s*(\d{2})[eEwW]`
(only `group(0)` is used by the caller). -/
def locCoordP1 (s : List Char) : Option (List Char) := do
  let (_, r1) ← eatN isDigitC 2 s
  let (_, r2) ← eatN isDigitC 2 (eatRun isSpaceC r1).2
  let (_, r3) ← eatN isDigitC 2 (eatRun isSpaceC r2).2
  let (_, r4) ← eatC isNS r3
  let (_, r5) ← eatN isDigitC 3 (eatRun isSpaceC r4).2
  let (_, r6) ← eatN isDigitC 2 (eatRun isSpaceC r5).2
  let (_, r7) ← eatN isDigitC 2 (eatRun isSpaceC r6).2
  let (_, r8) ← eatC isEW r7
  some r8

/-- Location pattern `(\d{4}[nNsS]\d{5}[eEwW])`. -/
def locCoordP2 (s : List Char) : Option (List Char) := do
  let (_, r1) ← eatN isDigitC 4 s
  let (_, r2) ← eatC isNS r1
  let (_, r3) ← eatN isDigitC 5 r2
  let (_, r4) ← eatC isEW r3
  some r4

/-- Location pattern `(\d{6}[nNsS]\d{7}[eEwW])`. -/
def locCoordP3 (s : List Char) : Option (List Char) := do
  let (_, r1) ← eatN isDigitC 6 s
  let (_, r2) ← eatC isNS r1
  let (_, r3) ← eatN isDigitC 7 r2
  let (_, r4) ← eatC isEW r3
  some r4

/-- Radius pattern `(\d+)\s*nm.*radius`. -/
def radP1 (s : List Char) : Option String := do
  let (ds, r1) := eatRun isDigitC s
  if ds = [] then none else do
  let r2 ← eatLit "nm".data (eatRun isSpaceC r1).2
  if (searchO (eatLit "radius".data) r2).isSome then some ⟨ds⟩ else none

/-- Radius pattern `within\s*(\d+)\s*nm`. -/
def radP2 (s : List Char) : Option String := do
  let r1 ← eatLit "within".data s
  let (ds, r2) := eatRun isDigitC (eatRun isSpaceC r1).2
  if ds = [] then none else do
  let _ ← eatLit "nm".data (eatRun isSpaceC r2).2
  some ⟨ds⟩

/-- Radius pattern `radius\s*(\d+)\s*nm`. -/
def radP3 (s : List Char) : Option String := do
  let r1 ← eatLit "radius".data s
  let (ds, r2) := eatRun isDigitC (eatRun isSpaceC r1).2
  if ds = [] then none else do
  let _ ← eatLit "nm".data (eatRun isSpaceC r2).2
  some ⟨ds⟩

/-- `NOTAMParser._extract_location`: coordinates are matched on the raw text
(first pattern wins, `break`), radius on the lowered text. -/
def extract_location (text : String) : LocationInfo :=
  let raw := text.data
  let tl := (pyLower text).data
  let coords := (searchO (withMatched locCoordP1) raw) <|>
    (searchO (withMatched locCoordP2) raw) <|>
    (searchO (withMatched locCoordP3) raw)
  let rad := (searchO radP1 tl) <|> (searchO radP2 tl) <|> (searchO radP3 tl)
  { coordinates := coords, radius := rad.map (fun g => g ++ " nm"),
    area_description := none }

/-- Coordinate pattern `(\d{2})(\d{2})(\d{2})[nNsS]\s*(\d{3})(\d{2})(\d{2})[eEwW]`
of `_extract_coordinates`, returning `group(0)` and the six digit groups. -/
def coordSixGroups (s : List Char) :
    Option (String × String × String × String × String × String × String) := do
  let (g1, r1) ← eatN isDigitC 2 s
  let (g2, r2) ← eatN isDigitC 2 r1
  let (g3, r3) ← eatN isDigitC 2 r2
  let (_, r4) ← eatC isNS r3
  let (g4, r5) ← eatN isDigitC 3 (eatRun isSpaceC r4).2
  let (g5, r6) ← eatN isDigitC 2 r5
  let (g6, r7) ← eatN isDigitC 2 r6
  let (_, r8) ← eatC isEW r7
  some (⟨s.take (s.length - r8.length)⟩, ⟨g1⟩, ⟨g2⟩, ⟨g3⟩, ⟨g4⟩, ⟨g5⟩, ⟨g6⟩)

/-- `NOTAMParser._extract_coordinates` on the upper-cased text.  The second
table entry `(\d{4}[nNsS]\d{5}[eEwW])` has a single group, so the
`len(match.groups()) >= 6` guard always rejects it and it never produces a
value; only the six-group pattern matters. -/
def extract_coordinates (text : String) : Option Coordinates :=
  let u := (pyUpper text).data
  match searchO coordSixGroups u with
  | some (g0, g1, g2, g3, g4, g5, g6) =>
    let lat : Rat := (natOfDigits g1 : Rat) + (natOfDigits g2 : Rat) / 60 +
      (natOfDigits g3 : Rat) / 3600
    let lon : Rat := (natOfDigits g4 : Rat) + (natOfDigits g5 : Rat) / 60 +
      (natOfDigits g6 : Rat) / 3600
    let lat := if sub "S" g0 then -lat else lat
    let lon := if sub "W" g0 then -lon else lon
    some { latitude := lat, longitude := lon }
  | none => none

/-! ## `_extract_altitudes` -/

/-- Group `(\d{1,2},?\d{3})` with the engine's backtracking order:
two digits + comma, two digits, one digit + comma, one digit. -/
def grp12c3 (s : List Char) : Option (String × List Char) :=
  match (do
    let (a, r1) ← eatN isDigitC 2 s
    let r2 ← eatLit [','] r1
    let (b, r3) ← eatN isDigitC 3 r2
    some (⟨a ++ ',' :: b⟩, r3) : Option (String × List Char)) with
  | some v => some v
  | none =>
    match (do
      let (a, r1) ← eatN isDigitC 2 s
      let (b, r2) ← eatN isDigitC 3 r1
      some (⟨a ++ b⟩, r2) : Option (String × List Char)) with
    | some v => some v
    | none =>
      match (do
        let (a, r1) ← eatN isDigitC 1 s
        let r2 ← eatLit [','] r1
        let (b, r3) ← eatN isDigitC 3 r2
        some (⟨a ++ ',' :: b⟩, r3) : Option (String × List Char)) with
      | some v => some v
      | none => do
        let (a, r1) ← eatN isDigitC 1 s
        let (b, r2) ← eatN isDigitC 3 r1
        some (⟨a ++ b⟩, r2)

/-- Altitude pattern `sfc.*fl(\d{3})`; the greedy `.*` puts the group at the
rightmost possible position. -/
def altP1 (s : List Char) : Option ((String × String) × List Char) := do
  let r1 ← eatLit "sfc".data s
  let (g1, rest) ← searchLastO (fun suf => do
    let r ← eatLit "fl".data suf
    let (d3, r2) ← eatN isDigitC 3 r
    some ((⟨d3⟩ : String), r2)) r1
  some ((⟨s.take (s.length - rest.length)⟩, g1), rest)

/-- Altitude pattern `surface.*(\d{1,2},?\d{3})\s*ft` (greedy `.*`). -/
def altP2 (s : List Char) : Option ((String × String) × List Char) := do
  let r1 ← eatLit "surface".data s
  let (g1, rest) ← searchLastO (fun suf => do
    let (g, r2) ← grp12c3 suf
    let r3 ← eatLit "ft".data (eatRun isSpaceC r2).2
    some (g, r3)) r1
  some ((⟨s.take (s.length - rest.length)⟩, g1), rest)

/-- Altitude pattern `fl(\d{3})`. -/
def altP3 (s : List Char) : Option ((String × String) × List Char) := do
  let r ← eatLit "fl".data s
  let (d3, r2) ← eatN isDigitC 3 r
  some ((⟨s.take (s.length - r2.length)⟩, ⟨d3⟩), r2)

/-- Altitude pattern `(\d{1,2},?\d{3})\s*ft.*msl` (greedy `.*` runs to the
last `msl`). -/
def altP4 (s : List Char) : Option ((String × String) × List Char) := do
  let (g, r1) ← grp12c3 s
  let r2 ← eatLit "ft".data (eatRun isSpaceC r1).2
  let rest ← searchLastO (eatLit "msl".data) r2
  some ((⟨s.take (s.length - rest.length)⟩, g), rest)

/-- Python `str.replace(',', '')`. -/
def dropCommas (s : String) : String := ⟨s.data.filter (fun c => c ≠ ',')⟩

/-- The loop body of `_extract_altitudes` for one match: a group containing
`fl` goes to `flight_levels` via `int(group(1)) * 100` — which raises
`ValueError` when the capture contains a comma — otherwise the de-commaed
value goes to `restrictions`. -/
def applyAltMatch (acc : List Nat × List Nat) (m : String × String) :
    Except PyError (List Nat × List Nat) :=
  if sub "fl" m.1 then do
    let fl ← pyInt m.2
    .ok (acc.1 ++ [fl * 100], acc.2)
  else do
    let v ← pyInt (dropCommas m.2)
    .ok (acc.1, acc.2 ++ [v])

/-- `NOTAMParser._extract_altitudes`: all `finditer` hits of the four
patterns, in order; the first `ValueError` propagates to `parse`'s handler. -/
def extract_altitudes (text : String) : Except PyError Altitudes := do
  let tl := (pyLower text).data
  let ms := findIter altP1 tl ++ findIter altP2 tl ++ findIter altP3 tl ++
    findIter altP4 tl
  let res ← ms.foldlM (fun acc m => applyAltMatch acc m.2.2) ([], [])
  .ok { surface_to := none, flight_levels := res.1, restrictions := res.2 }

/-! ## `_analyze_impact`, `_clean_description`, `_extract_keywords` -/

/-- The `impact_patterns` table (literal chains for the `.*` regexes). -/
def impact_patterns : List (String × List (List String)) :=
  [("closure", [["closed"], ["clsd"], ["not", "available"],
                ["out", "of", "service"], ["unavbl"]]),
   ("restriction", [["restricted"], ["limited"], ["caution"], ["avoid"],
                    ["displaced"]]),
   ("information", [["advise"], ["information"], ["note"],
                    ["pilots", "advised"], ["coord"]])]

/-- `NOTAMParser._analyze_impact`. -/
def analyze_impact (text : String) : ImpactInfo :=
  let tl := pyLower text
  let ty := match impact_patterns.find?
      (fun p => p.2.any (fun pat => seqMatch pat tl)) with
    | some p => p.1
    | none => "unknown"
  let sc1 := ["closed", "unavailable", "emergency", "danger"].foldl
    (fun a t => if sub t tl then a + 3 else a) 0
  let sc2 := ["restricted", "caution", "displaced", "limited"].foldl
    (fun a t => if sub t tl then a + 1 else a) sc1
  let phases :=
    (if ["runway", "takeoff", "landing"].any (fun t => sub t tl) then
      ["takeoff", "landing"] else []) ++
    (if ["taxiway", "taxi", "ground"].any (fun t => sub t tl) then
      ["taxi"] else []) ++
    (if ["approach", "ils", "vor"].any (fun t => sub t tl) then
      ["approach"] else []) ++
    (if ["airspace", "navigation", "en-route"].any (fun t => sub t tl) then
      ["en-route"] else [])
  { type := ty, severity_score := sc2, flight_operations := [],
    affected_phases := phases }

/-- Collapse each whitespace run to a single blank (`re.sub(r'\s+', ' ', ·)`),
phase 1: map every whitespace character to a blank. -/
def squeezeBlanks : List Char → List Char
  | [] => []
  | [c] => [c]
  | a :: b :: t =>
    if a == ' ' && b == ' ' then squeezeBlanks (b :: t)
    else a :: squeezeBlanks (b :: t)

/-- Length of the anchored header `^NOTAM\s+[A-Z]\d+/\d+\s*` under
`re.IGNORECASE` (so `[A-Z]` is any ASCII letter), when it matches. -/
def headerLen (l : List Char) : Option Nat := do
  let low := l.map Char.toLower
  let r1 ← eatLit "notam".data low
  let (sp1, r2) := eatRun isSpaceC r1
  if sp1 = [] then none else do
  let (_, r3) ← eatC Char.isAlpha r2
  let (d1, r4) := eatRun isDigitC r3
  if d1 = [] then none else do
  let r5 ← eatLit ['/'] r4
  let (d2, r6) := eatRun isDigitC r5
  if d2 = [] then none else do
  let (_, r7) := eatRun isSpaceC r6
  some (low.length - r7.length)

/-- `NOTAMParser._clean_description`. -/
def clean_description (text : String) : String :=
  let normalized := squeezeBlanks
    ((pyStrip text).data.map (fun c => if isSpaceC c then ' ' else c))
  let cleaned := match headerLen normalized with
    | some k => normalized.drop k
    | none => normalized
  if cleaned.length > 300 then (⟨cleaned.take 300⟩ : String) ++ "..."
  else ⟨cleaned⟩

/-- The `aviation_terms` keyword vocabulary. -/
def aviation_terms : List String :=
  ["runway", "taxiway", "approach", "ils", "vor", "ndb", "dme", "closed",
   "restricted", "unavailable", "maintenance", "construction", "lighting",
   "fuel", "frequency", "navaid", "obstacle", "crane"]

/-- Deduplicate keeping first occurrences; models the source's
`list(set(keywords))`, whose exact order is a CPython implementation detail
(deterministic within a process) that no claim depends on. -/
def dedupFirst (l : List String) : List String :=
  l.foldl (fun acc s => if acc.contains s then acc else acc ++ [s]) []

/-- `NOTAMParser._extract_keywords`. -/
def extract_keywords (text : String) : List String :=
  let tl := pyLower text
  let base := aviation_terms.foldl
    (fun acc t => if sub t tl then acc ++ [t] else acc) []
  let rwys := (findIter (facLitNum "rwy") tl.data).map
    (fun m => "runway_" ++ m.2.2)
  let twys := (findIter (facLitTwy "twy") tl.data).map
    (fun m => "taxiway_" ++ m.2.2)
  dedupFirst (base ++ rwys ++ twys)

/-! ## `_assess_flight_impact`, `parse`, `parse_multiple` -/

/-- `NOTAMParser._assess_flight_impact`, taking the fields of the parsed
record that it reads (`severity`, `category`, `description`,
`impact.severity_score`). -/
def assess_flight_impact (severity category description : String)
    (impactScore : Nat) : FlightImpact :=
  let a0 : FlightImpact :=
    { overall_impact := "low", affected_operations := [],
      pilot_action_required := false, alternate_procedures := false,
      go_no_go_factor := false }
  let a1 :=
    if severity == "high" || (category == "runway" || category == "approach")
        || sub "closed" (pyLower description) then
      { a0 with overall_impact := "high", go_no_go_factor := true,
                pilot_action_required := true }
    else if severity == "medium" ||
        (category == "taxiway" || category == "navigation" ||
         category == "lighting") || impactScore ≥ 3 then
      { a0 with overall_impact := "medium", alternate_procedures := true,
                pilot_action_required := true }
    else a0
  let ops :=
    if category == "runway" then ["takeoff", "landing"]
    else if category == "taxiway" then ["ground_operations"]
    else if category == "approach" then ["approach", "landing"]
    else if category == "navigation" then ["navigation"]
    else []
  { a1 with affected_operations := a1.affected_operations ++ ops }

/-- Python truthiness of an optional string (`None` and `''` are falsy). -/
def pyTruthy : Option String → Bool
  | none => false
  | some s => !s.data.isEmpty

/-- The `try` body of `NOTAMParser.parse` for a `str` input: every field of
the result dict in source order.  For a `str`, the only sub-step that can
raise is `_extract_altitudes` (a comma inside a capture routed to the
flight-level branch); the exception propagates to the `except` arm.
`parsed_at` (from `utcnow`, which cannot fail) is injected by `parse`. -/
def parseBody (text : String) (airport_code : Option String) :
    Except PyError FullNotam := do
  let extracted := extract_airport_code text
  let airport :=
    if !pyTruthy airport_code && pyTruthy extracted then extracted
    else airport_code
  let severity := classify_severity text
  let category := determine_category text
  let time_info := extract_time_information text
  let impact := analyze_impact text
  let description := clean_description text
  let altitudes ← extract_altitudes text
  .ok { raw_text := text, airport_code := airport, airport := airport,
        parsed_at := "", notam_id := extract_notam_id text,
        severity := severity, category := category,
        type := determine_category text,
        affected_facilities := extract_facilities text,
        time_info := time_info, location := extract_location text,
        impact := impact, description := description,
        keywords := extract_keywords text,
        coordinates := extract_coordinates text, altitudes := altitudes,
        effective_from := time_info.effective_from,
        effective_until := time_info.effective_until,
        flight_impact := assess_flight_impact severity category description
          impact.severity_score,
        sequence_number := none }

/-- The `except` arm of `parse` for a `str` input. -/
def degradedRecord (now text : String) (e : PyError) : DegradedNotam :=
  { raw_text := text, error := e.toMessage, parsed_at := now ++ "Z",
    severity := "unknown", category := "unknown",
    description := if pyLen text > 200 then pyTake text 200 ++ "..." else text,
    sequence_number := none }

/-- `NOTAMParser.parse` on a `str` input; `now` is the
`datetime.utcnow().isoformat()` reading. -/
def parse (now text : String) (airport_code : Option String) : ParseOutcome :=
  match parseBody text airport_code with
  | .ok f => .full { f with parsed_at := now ++ "Z" }
  | .error e => .degraded (degradedRecord now text e)

/-- `NOTAMParser.parse` including the `None`-input behaviour.  Trace for
`parse(None)`: `_extract_airport_code(None)` returns `None` through its
`if not text` guard; the result-dict construction then calls
`_extract_notam_id(None)`, where `text.upper()` raises `AttributeError`; the
`except` handler evaluates `len(notam_text)` on `None`, raising `TypeError`
(CPython message: object of type NoneType has no len()), which propagates to
the caller. -/
def pyParse (now : String) (text : Option String)
    (airport_code : Option String) : Except PyError ParseOutcome :=
  match text with
  | some s => .ok (parse now s airport_code)
  | none => .error (.typeError "object of type NoneType has no len()")

/-- `parsed['sequence_number'] = i + 1` on either record shape. -/
def addSequence (n : Nat) : ParseOutcome → ParseOutcome
  | .full f => .full { f with sequence_number := some n }
  | .degraded d => .degraded { d with sequence_number := some n }

/-- Loop of `NOTAMParser.parse_multiple` from index `i`.  For `str` elements
`parse` never raises (its own handler works on a `str`), so the loop's
`except` arm is unreachable and every element contributes exactly one
result. -/
def parse_multiple_aux (now : String) (i : Nat) :
    List String → List ParseOutcome
  | [] => []
  | t :: ts =>
    addSequence (i + 1) (parse now t none) :: parse_multiple_aux now (i + 1) ts

/-- `NOTAMParser.parse_multiple` (signature `List[str]`). -/
def parse_multiple (now : String) (texts : List String) : List ParseOutcome :=
  parse_multiple_aux now 0 texts

end NOTAMParser

namespace WeatherSummarizer

/-! ## `WeatherSummarizer.assess_flight_conditions` (summary_model.py) -/

/-- Result record of `assess_flight_conditions`. -/
structure FlightAssessment where
  overall_status : String
  confidence : String
  risk_factors : List String
  recommendations : List String
  severity_score : Nat
deriving DecidableEq, Repr

/-- Input of `assess_flight_conditions`: `current_conditions` maps airports
to METAR objects of which only `rawOb` is read (dict iteration in insertion
order), and `hazards` holds the `sigmets`/`airmets` collections whose
truthiness (non-emptiness) is tested. -/
structure WeatherData where
  current_conditions : List (String × String)
  sigmets : List String
  airmets : List String
deriving DecidableEq, Repr

/-- Pattern `\d{3}(\d{2})(?:G(\d{2}))?KT`, returning
`(wind_speed, gust_speed)` with `gust_speed = 0` when the optional gust
group is absent. -/
def windGroup (s : List Char) : Option ((Nat × Nat) × List Char) := do
  let (_, r1) ← eatN isDigitC 3 s
  let (sp, r2) ← eatN isDigitC 2 r1
  match (do
    let r3 ← eatLit ['G'] r2
    let (g, r4) ← eatN isDigitC 2 r3
    let r5 ← eatLit "KT".data r4
    some ((natOfDigits ⟨sp⟩, natOfDigits ⟨g⟩), r5) :
      Option ((Nat × Nat) × List Char)) with
  | some v => some v
  | none => do
    let r3 ← eatLit "KT".data r2
    some ((natOfDigits ⟨sp⟩, 0), r3)

/-- Wind search of `assess_flight_conditions` on the upper-cased `rawOb`. -/
def windSearch (raw : String) : Option (Nat × Nat) :=
  searchO (fun l => (windGroup l).map (·.1)) raw.data

/-- Loop body of `assess_flight_conditions` for one station. -/
def stationStep (acc : FlightAssessment) (station : String × String) :
    FlightAssessment :=
  let raw := pyUpper station.2
  let acc :=
    if ["TS", "FZRA", "+SN"].any (fun t => sub t raw) then
      { acc with
        risk_factors := acc.risk_factors ++ [station.1 ++ ": Severe weather"],
        severity_score := acc.severity_score + 3 }
    else acc
  let acc :=
    if ["OVC", "1SM", "2SM"].any (fun t => sub t raw) then
      { acc with
        risk_factors := acc.risk_factors ++ [station.1 ++ ": IFR conditions"],
        severity_score := acc.severity_score + 1 }
    else acc
  match windSearch raw with
  | some (sp, g) =>
    if sp > 25 || g > 35 then
      { acc with
        risk_factors := acc.risk_factors ++ [station.1 ++ ": Strong winds"],
        severity_score := acc.severity_score + 2 }
    else acc
  | none => acc

/-- Accumulation phase of `assess_flight_conditions`: the station loop and
the two hazard-collection checks, starting from the initial GO/HIGH
record. -/
def accumulate_conditions (d : WeatherData) : FlightAssessment :=
  let a0 : FlightAssessment :=
    { overall_status := "GO", confidence := "HIGH", risk_factors := [],
      recommendations := [], severity_score := 0 }
  let a1 := d.current_conditions.foldl stationStep a0
  let a2 :=
    if !d.sigmets.isEmpty then
      { a1 with risk_factors := a1.risk_factors ++ ["Active SIGMETs"],
                severity_score := a1.severity_score + 2 }
    else a1
  if !d.airmets.isEmpty then
    { a2 with risk_factors := a2.risk_factors ++ ["Active AIRMETs"],
              severity_score := a2.severity_score + 1 }
  else a2

/-- Final mapping of `assess_flight_conditions` from the accumulated score
to status/confidence/recommendation. -/
def finalize_assessment (a3 : FlightAssessment) : FlightAssessment :=
  if a3.severity_score ≥ 7 then
    { a3 with overall_status := "NO-GO", confidence := "HIGH",
              recommendations := a3.recommendations ++
                ["Do not attempt flight - severe conditions"] }
  else if a3.severity_score ≥ 4 then
    { a3 with overall_status := "CAUTION", confidence := "MEDIUM",
              recommendations := a3.recommendations ++
                ["Exercise extreme caution - consider alternate plans"] }
  else if a3.severity_score ≥ 2 then
    { a3 with overall_status := "GO", confidence := "MEDIUM",
              recommendations := a3.recommendations ++
                ["Proceed with caution - monitor conditions"] }
  else
    { a3 with overall_status := "GO", confidence := "HIGH",
              recommendations := a3.recommendations ++
                ["Good conditions for flight"] }

/-- `WeatherSummarizer.assess_flight_conditions` (accumulation followed by
the final score-to-status mapping).  The `try` body is total for these
inputs, so the generic `except` arm (UNKNOWN/LOW) is unreachable. -/
def assess_flight_conditions (d : WeatherData) : FlightAssessment :=
  finalize_assessment (accumulate_conditions d)

/-- The three boolean hazard conditions a station's `rawOb` can trigger in
`assess_flight_conditions` (severe weather, IFR, strong winds). -/
def stationFlags (rawOb : String) : Bool × Bool × Bool :=
  let raw := pyUpper rawOb
  (["TS", "FZRA", "+SN"].any (fun t => sub t raw),
   ["OVC", "1SM", "2SM"].any (fun t => sub t raw),
   match windSearch raw with
   | some (sp, g) => sp > 25 || g > 35
   | none => false)

/-- Score contribution of one station's hazard flags (+3 severe, +1 IFR,
+2 strong wind). -/
def stationPoints (f : Bool × Bool × Bool) : Nat :=
  (if f.1 then 3 else 0) + (if f.2.1 then 1 else 0) + (if f.2.2 then 2 else 0)

/-- The accumulated `severity_score` as a function of the per-station hazard
flags and the hazard-collection flags (+2 SIGMETs, +1 AIRMETs). -/
def scoreOfFlags (fl : List (Bool × Bool × Bool)) (sg am : Bool) : Nat :=
  (fl.map stationPoints).sum + (if sg then 2 else 0) + (if am then 1 else 0)

/-- Hazard-flag weakening: the left flag implies the right one ("adding a
hazard" turns a `false` into a `true`). -/
def bLe (b b' : Bool) : Prop := b = true → b' = true

/-- Componentwise weakening of one station's three hazard flags. -/
def flag3Le (f g : Bool × Bool × Bool) : Prop :=
  bLe f.1 g.1 ∧ bLe f.2.1 g.2.1 ∧ bLe f.2.2 g.2.2

/-! ## `WeatherSummarizer.categorize_weather_conditions` -/

/-- Result record of `categorize_weather_conditions`. -/
structure WeatherCategorization where
  category : String
  explanation : String
  flight_impact : String
  severity_factors : List String
  conditions_present : List String
  raw_metar : String
deriving DecidableEq, Repr

/-- Pattern `(BKN|OVC)00[0-2]` (severe ceiling check). -/
def sevCeilMatch (s : List Char) : Option Unit := do
  let r1 ← (eatLit "BKN".data s) <|> (eatLit "OVC".data s)
  let r2 ← eatLit "00".data r1
  let _ ← eatC (fun c => c == '0' || c == '1' || c == '2') r2
  some ()

/-- Pattern `(BKN|OVC)00[3-9]|010|015|020` (significant ceiling check; the
top-level alternation makes the bare digit strings independent
alternatives). -/
def sigCeilMatch (s : List Char) : Option Unit :=
  (do
    let r1 ← (eatLit "BKN".data s) <|> (eatLit "OVC".data s)
    let r2 ← eatLit "00".data r1
    let _ ← eatC (fun c => '3' ≤ c && c ≤ '9') r2
    some ()) <|>
  ((eatLit "010".data s).map fun _ => ()) <|>
  ((eatLit "015".data s).map fun _ => ()) <|>
  ((eatLit "020".data s).map fun _ => ())

/-- Pattern `(\d{3})(\d{2})KT` (crosswind check, no gust group). -/
def xwindGroup (s : List Char) : Option Nat := do
  let (_, r1) ← eatN isDigitC 3 s
  let (sp, r2) ← eatN isDigitC 2 r1
  let _ ← eatLit "KT".data r2
  some (natOfDigits ⟨sp⟩)

/-- The ordered severe-condition checklist: for each check its guard on the
upper-cased METAR, the `severe_conditions` entry and the
`severity_factors` entry it appends. -/
def severeChecks (u : String) : List (Bool × String × String) :=
  [(sub "TS" u, "Thunderstorms present",
    "Electrical activity and severe turbulence risk"),
   (["G30", "G35", "G40", "G45"].any (fun t => sub t u),
    "Strong gusting winds (30+ knots)",
    "Severe wind gusts affecting aircraft control"),
   (["0SM", "M1/4SM", "1/4SM", "1/2SM"].any (fun t => sub t u),
    "Extremely low visibility (< 1 mile)",
    "Visibility below safe minimums for most operations"),
   ((searchO sevCeilMatch u.data).isSome, "Extremely low ceiling (< 500 feet)",
    "Ceiling below approach minimums"),
   (["FZRA", "FZDZ", "FZFG"].any (fun t => sub t u), "Freezing precipitation",
    "Severe aircraft icing conditions"),
   (["+RA", "+SN", "+SHSN", "+TSRA"].any (fun t => sub t u),
    "Heavy precipitation",
    "Reduced visibility and aircraft performance impact"),
   (sub "ICE" u || sub "FZFG" u, "Severe icing conditions",
    "Critical aircraft icing hazard")]

/-- The ordered significant-condition checklist (evaluated only when no
severe condition matched). -/
def significantChecks (u : String) : List (Bool × String × String) :=
  [(["G20", "G25"].any (fun t => sub t u), "Moderate wind gusts (20-29 knots)",
    "Increased difficulty in aircraft handling"),
   (["1SM", "2SM", "3SM"].any (fun t => sub t u),
    "Reduced visibility (1-3 miles)",
    "IFR conditions requiring instrument approach"),
   ((searchO sigCeilMatch u.data).isSome, "Low ceiling (500-2000 feet)",
    "Restricted VFR operations"),
   ((["RA", "SN", "DZ", "SH"].any (fun t => sub t u) &&
     !(["+RA", "+SN", "+DZ"].any (fun t => sub t u))),
    "Light to moderate precipitation", "Potential visibility reduction"),
   (["BR", "FG", "HZ"].any (fun t => sub t u),
    "Visibility restrictions (mist/fog/haze)",
    "Reduced visibility conditions"),
   (match searchO xwindGroup u.data with
    | some sp =>
      (decide (sp ≥ 15), "Strong winds (" ++ toString sp ++ " knots)",
       "Challenging crosswind conditions")
    | none => (false, "", ""))]

/-- Conditions appended by a checklist (guarded entries, in order). -/
def checksConds (l : List (Bool × String × String)) : List String :=
  l.filterMap fun c => if c.1 then some c.2.1 else none

/-- Factors appended by a checklist (guarded entries, in order). -/
def checksFactors (l : List (Bool × String × String)) : List String :=
  l.filterMap fun c => if c.1 then some c.2.2 else none

/-- `WeatherSummarizer.categorize_weather_conditions`.  The `try` body is
total here, so the Unknown `except` arm is unreachable. -/
def categorize_weather_conditions (metar_text : String) :
    WeatherCategorization :=
  let u := pyUpper metar_text
  let severe := checksConds (severeChecks u)
  let severeF := checksFactors (severeChecks u)
  let signif := if severe.isEmpty then checksConds (significantChecks u)
    else []
  let signifF := if severe.isEmpty then checksFactors (significantChecks u)
    else []
  let factors := severeF ++ signifF
  if !severe.isEmpty then
    { category := "Severe", flight_impact := "Critical",
      explanation := "SEVERE weather conditions present: " ++
        String.intercalate ", " severe ++
        ". Reasons for severe classification: " ++
        String.intercalate "; " factors ++ ".",
      severity_factors := factors, conditions_present := severe ++ signif,
      raw_metar := metar_text }
  else if !signif.isEmpty then
    { category := "Significant", flight_impact := "Moderate",
      explanation := "SIGNIFICANT weather conditions present: " ++
        String.intercalate ", " signif ++
        ". Reasons for significant classification: " ++
        String.intercalate "; " factors ++ ".",
      severity_factors := factors, conditions_present := severe ++ signif,
      raw_metar := metar_text }
  else
    { category := "Clear", flight_impact := "Minimal",
      explanation := "CLEAR weather conditions - no significant weather phenomena affecting flight operations. VFR conditions with good visibility and manageable winds.",
      severity_factors := factors, conditions_present := severe ++ signif,
      raw_metar := metar_text }

/-! ## Flight-category fragment of `_enhanced_pilot_metar_summary` -/

/-- Visibility pattern `(\d+)SM|(\d{4})`: statute miles from the first
branch, metres divided by 1609 (a CPython float division, modelled exactly
in `Rat`) from the second; alternatives tried left to right at each
position. -/
def visBranch (s : List Char) : Option Rat :=
  match (do
    let (ds, r1) := eatRun isDigitC s
    if ds = [] then none else do
    let _ ← eatLit "SM".data r1
    some ((natOfDigits ⟨ds⟩ : Rat)) : Option Rat) with
  | some v => some v
  | none => (eatN isDigitC 4 s).map fun m => ((natOfDigits ⟨m.1⟩ : Rat) / 1609)

/-- The `visibility` extraction of `_enhanced_pilot_metar_summary`. -/
def visExtract (u : List Char) : Option Rat := searchO visBranch u

/-- Ceiling pattern `(BKN|OVC)(\d{3})`, scaled by 100. -/
def ceilBranch (s : List Char) : Option Nat := do
  let r1 ← (eatLit "BKN".data s) <|> (eatLit "OVC".data s)
  let (d3, _) ← eatN isDigitC 3 r1
  some (natOfDigits ⟨d3⟩ * 100)

/-- The `ceiling` extraction of `_enhanced_pilot_metar_summary`. -/
def ceilExtract (u : List Char) : Option Nat := searchO ceilBranch u

/-- The flight-category computation of `_enhanced_pilot_metar_summary`
(summary_model.py lines 268-296): fixed visibility/ceiling thresholds,
guarded by Python truthiness of both extracted values (`None` and `0` are
falsy), with `Unknown` as the untouched default. -/
def pilot_metar_flight_category (raw_metar : String) : String :=
  let u := (pyUpper raw_metar).data
  let visibility := visExtract u
  let ceiling := ceilExtract u
  match visibility, ceiling with
  | some v, some c =>
    if v ≠ 0 ∧ c ≠ 0 then
      if v ≥ 5 ∧ c ≥ 3000 then "VFR"
      else if v ≥ 3 ∧ c ≥ 1000 then "MVFR"
      else if v ≥ 1 ∧ c ≥ 500 then "IFR"
      else "LIFR"
    else "Unknown"
  | _, _ => "Unknown"

end WeatherSummarizer

/-! ## Concrete inputs used by the claims -/

/-- The §8 sample NOTAM text. -/
def sampleNotam : String :=
  "A1234/21 NOTAMN Q)KORD/QMXLC/IV/NBO/A/000/999/4155N08748W005 A)KORD B)2110011200 C)2110012359 E)RWY 10L/28R CLSD"

/-- A NOTAM text whose altitude extraction raises `ValueError` inside
`parse` (comma inside a capture routed to the flight-level branch), so that
`parse` returns its degraded, `error`-tagged record. -/
def badAltNotam : String := "SURFACE TO FL 5,000 FT"

/-- The seven fixed severe-condition description strings. -/
def severeConditionTexts : List String :=
  ["Thunderstorms present", "Strong gusting winds (30+ knots)",
   "Extremely low visibility (< 1 mile)",
   "Extremely low ceiling (< 500 feet)", "Freezing precipitation",
   "Heavy precipitation", "Severe icing conditions"]

/-- A route input whose single station reports severe weather, IFR and
strong winds while SIGMETs are active (score 8). -/
def noGoExample : WeatherSummarizer.WeatherData :=
  { current_conditions :=
      [("KORD", "METAR KORD 011251Z 29030G40KT 1SM TSRA OVC005")],
    sigmets := ["SIGMET"], airmets := [] }

/-- Hierarchical consistency of a flight-impact record, as the claim states
it: go/no-go entails high impact with pilot action and no
alternate-procedures flag; alternate procedures entail medium impact with
pilot action and no go/no-go flag; low impact entails all three flags
clear. -/
def hierConsistent (a : FlightImpact) : Bool :=
  (!a.go_no_go_factor || (a.overall_impact == "high" &&
    a.pilot_action_required && !a.alternate_procedures)) &&
  (!a.alternate_procedures || (a.overall_impact == "medium" &&
    a.pilot_action_required && !a.go_no_go_factor)) &&
  (!(a.overall_impact == "low") || (!a.go_no_go_factor &&
    !a.alternate_procedures && !a.pilot_action_required))

/-! ## Claim theorems -/

open NOTAMParser WeatherSummarizer

/-- C1, counterexample: on the §8 sample text the severity classifier
returns "medium" (no `severity_patterns` regex matches the abbreviated
`RWY … CLSD` wording), not the "high" the claim states. -/
theorem c1_sample_severity_counterexample :
    (parse "2025-01-01T00:00:00" sampleNotam none).severityOf = "medium" ∧
    ("medium" : String) ≠ "high" :=
  ⟨rfl, by decide⟩

/-- C1 (amended): parsing the §8 sample text returns a full record with
notam_id "A1234/21", airport_code "KORD", category "runway", severity
"medium" (not "high"), and flight_impact.go_no_go_factor true, for any
clock reading. -/
theorem c1_sample_parse_fields (now : String) :
    (parse now sampleNotam none).notamIdOf = some "A1234/21" ∧
    (parse now sampleNotam none).airportCodeOf = some "KORD" ∧
    (parse now sampleNotam none).categoryOf = "runway" ∧
    (parse now sampleNotam none).severityOf = "medium" ∧
    (parse now sampleNotam none).goNoGoOf = some true :=
  ⟨rfl, rfl, rfl, rfl, rfl⟩

/-- C1 witness: the amended field values at a concrete clock reading. -/
theorem c1_sample_parse_fields_witness :
    (parse "2025-01-01T00:00:01" sampleNotam none).severityOf = "medium" ∧
    (parse "2025-01-01T00:00:01" sampleNotam none).goNoGoOf = some true :=
  ⟨(c1_sample_parse_fields "2025-01-01T00:00:01").2.2.2.1,
   (c1_sample_parse_fields "2025-01-01T00:00:01").2.2.2.2⟩

/-- C2: the claim is right and the code is wrong — on `None` input the
extraction raises instead of returning the degraded record, because the
`except` handler itself evaluates `len(notam_text)` on `None` (TypeError);
and on the empty string it returns an ordinary record (severity "medium",
no `error` field) rather than the degraded `severity = unknown` record. -/
theorem c2_parse_null_raises_bug :
    pyParse "2025-01-01T00:00:00" none none =
      .error (.typeError "object of type NoneType has no len()") ∧
    (parse "2025-01-01T00:00:00" "" none).errorOf = none ∧
    (parse "2025-01-01T00:00:00" "" none).severityOf = "medium" :=
  ⟨rfl, rfl, rfl⟩

/-- C3, counterexample: two calls on the same text and hint at different
clock readings return records differing in the `parsed_at` field, so the
results are not equal in every field. -/
theorem c3_two_calls_counterexample :
    parse "2021-01-01T00:00:00" sampleNotam none ≠
      parse "2022-01-01T00:00:00" sampleNotam none :=
  fun h => absurd (congrArg ParseOutcome.parsedAtOf h) (by decide)

/-- C3 (amended): extraction is deterministic in the text and airport hint
in every field except the wall-clock `parsed_at` stamp — two calls with the
same inputs agree once `parsed_at` is erased. -/
theorem c3_deterministic_modulo_clock (now₁ now₂ text : String)
    (hint : Option String) :
    (parse now₁ text hint).stripTime = (parse now₂ text hint).stripTime := by
  unfold NOTAMParser.parse
  cases hb : parseBody text hint <;>
    simp [ParseOutcome.stripTime, degradedRecord]

/-- C3 witness: clock-independence of the stripped records at concrete
inputs. -/
theorem c3_deterministic_modulo_clock_witness :
    (parse "2021-01-01T00:00:00" badAltNotam none).stripTime =
      (parse "2022-01-01T00:00:00" badAltNotam none).stripTime :=
  c3_deterministic_modulo_clock "2021-01-01T00:00:00" "2022-01-01T00:00:00"
    badAltNotam none

/-- A list with a member is not empty. -/
lemma isEmpty_false_of_mem {α : Type} {l : List α} {a : α} (h : a ∈ l) :
    l.isEmpty = false := by
  cases l with
  | nil => simp at h
  | cons b t => simp [List.isEmpty]

/-- Everything `checksConds` returns is one of the checklist's description
strings. -/
lemma mem_checksConds {l : List (Bool × String × String)} {c : String}
    (h : c ∈ checksConds l) : c ∈ l.map (fun p => p.2.1) := by
  rcases List.mem_filterMap.mp h with ⟨a, ha, hfa⟩
  by_cases hb : a.1
  · simp only [hb, if_true, Option.some.injEq] at hfa
    exact hfa ▸ List.mem_map_of_mem _ ha
  · simp [hb] at hfa

/-- The description column of the severe checklist is that fixed list. -/
lemma severeChecks_texts (u : String) :
    (severeChecks u).map (fun p => p.2.1) = severeConditionTexts := rfl

/-- C4: a weather text containing both a severe token (`TS`) and a
significant-tier-only token (`BR`) is categorized "Severe" with flight
impact "Critical", and its `conditions_present` list is exactly the matched
severe checklist — the significant checklist is skipped entirely, so no
significant-tier-only entry appears. -/
theorem c4_severe_shortcircuit (s : String)
    (hTS : sub "TS" (pyUpper s) = true) (hBR : sub "BR" (pyUpper s) = true) :
    (categorize_weather_conditions s).category = "Severe" ∧
    (categorize_weather_conditions s).flight_impact = "Critical" ∧
    (categorize_weather_conditions s).conditions_present =
      checksConds (severeChecks (pyUpper s)) ∧
    ∀ c ∈ (categorize_weather_conditions s).conditions_present,
      c ∈ severeConditionTexts := by
  have hmem : "Thunderstorms present" ∈ checksConds (severeChecks (pyUpper s)) :=
    List.mem_filterMap.mpr ⟨(sub "TS" (pyUpper s), "Thunderstorms present",
      "Electrical activity and severe turbulence risk"),
      by simp [severeChecks], by simp [hTS]⟩
  have hne : (checksConds (severeChecks (pyUpper s))).isEmpty = false :=
    isEmpty_false_of_mem hmem
  have h3 : (categorize_weather_conditions s).conditions_present =
      checksConds (severeChecks (pyUpper s)) := by
    simp [categorize_weather_conditions, hne]
  refine ⟨by simp [categorize_weather_conditions, hne],
    by simp [categorize_weather_conditions, hne], h3, ?_⟩
  intro c hc
  rw [h3] at hc
  have hmap := mem_checksConds hc
  rwa [severeChecks_texts] at hmap

/-- C4 witness: the two-token text "TS BR" is categorized Severe/Critical. -/
theorem c4_severe_shortcircuit_witness :
    sub "TS" (pyUpper "TS BR") = true ∧ sub "BR" (pyUpper "TS BR") = true ∧
    (categorize_weather_conditions "TS BR").category = "Severe" ∧
    (categorize_weather_conditions "TS BR").flight_impact = "Critical" :=
  ⟨by decide, by decide,
   (c4_severe_shortcircuit "TS BR" (by decide) (by decide)).1,
   (c4_severe_shortcircuit "TS BR" (by decide) (by decide)).2.1⟩

/-- C5, counterexample: "36009G32KT" reports a 32-knot gust (≥ 30), yet the
categorization returns "Clear", not "Severe" — the severe gust check only
looks for the literal tokens G30/G35/G40/G45. -/
theorem c5_gust32_counterexample :
    sub "G32" (pyUpper "36009G32KT") = true ∧
    (categorize_weather_conditions "36009G32KT").category = "Clear" ∧
    (categorize_weather_conditions "36009G32KT").category ≠ "Severe" :=
  ⟨by decide, by decide, by decide⟩

/-- C5 (amended): a weather text containing one of the literal gust tokens
G30, G35, G40 or G45 (the only gust spellings the severe check tests) is
categorized "Severe" with flight impact "Critical". -/
theorem c5_gust_token_severe (s : String)
    (hG : (["G30", "G35", "G40", "G45"].any
      (fun t => sub t (pyUpper s))) = true) :
    (categorize_weather_conditions s).category = "Severe" ∧
    (categorize_weather_conditions s).flight_impact = "Critical" := by
  have hmem : "Strong gusting winds (30+ knots)" ∈
      checksConds (severeChecks (pyUpper s)) :=
    List.mem_filterMap.mpr ⟨(["G30", "G35", "G40", "G45"].any
      (fun t => sub t (pyUpper s)), "Strong gusting winds (30+ knots)",
      "Severe wind gusts affecting aircraft control"),
      by simp [severeChecks], by simp [hG]⟩
  have hne : (checksConds (severeChecks (pyUpper s))).isEmpty = false :=
    isEmpty_false_of_mem hmem
  exact ⟨by simp [categorize_weather_conditions, hne],
    by simp [categorize_weather_conditions, hne]⟩

/-- C5 witness: a text with the literal token G35 is categorized Severe. -/
theorem c5_gust_token_severe_witness :
    (["G30", "G35", "G40", "G45"].any
      (fun t => sub t (pyUpper "27020G35KT"))) = true ∧
    (categorize_weather_conditions "27020G35KT").category = "Severe" :=
  ⟨by decide, (c5_gust_token_severe "27020G35KT" (by decide)).1⟩

/-- A successful `pyInt` returns the digit value of its argument. -/
lemma pyInt_ok_val {s : String} {n : Nat} (h : pyInt s = .ok n) :
    n = natOfDigits s := by
  unfold pyInt at h
  split at h
  · injection h with h'
    rw [← h']
    rfl
  · simp at h

/-- C6: the NOTAM datetime conversion maps "2110011200" to
"2021-10-01T12:00:00Z" (adding 2000 to the two-digit year); the invalid
month 13 in "2113011200" yields `none`; inside time extraction an invalid
effective-from leaves only that field null while the until-field is still
extracted; and in general any month value above 12 yields `none` (never an
exception — the conversion is total). -/
theorem c6_notam_datetime_conversion :
    parse_notam_datetime "2110011200" = some "2021-10-01T12:00:00Z" ∧
    parse_notam_datetime "2113011200" = none ∧
    extract_time_information "fm 2113011200 til 2110012359" =
      { effective_from := none,
        effective_until := some "2021-10-01T23:59:00Z",
        daily_times := none, is_permanent := false, is_temporary := true } ∧
    ∀ ds : String, 12 < natOfDigits (pySlice ds 2 4) →
      parse_notam_datetime ds = none := by
  refine ⟨by decide, by decide, by decide, ?_⟩
  intro ds hm
  unfold parse_notam_datetime
  split
  · split
    · next yy mm dd hh mi h1 h2 h3 h4 h5 =>
      have hmm : mm = natOfDigits (pySlice ds 2 4) := pyInt_ok_val h2
      have hneg : ¬(1 ≤ mm ∧ mm ≤ 12 ∧ 1 ≤ dd ∧
          dd ≤ daysInMonth (2000 + yy) mm ∧ hh ≤ 23 ∧ mi ≤ 59) := by
        omega
      rw [if_neg hneg]
    · rfl
  · rfl

/-- C6 witness: the month-13 input exceeds 12 and converts to null. -/
theorem c6_notam_datetime_conversion_witness :
    12 < natOfDigits (pySlice "2113011200" 2 4) ∧
    parse_notam_datetime "2113011200" = none :=
  ⟨by decide, c6_notam_datetime_conversion.2.2.2 "2113011200" (by decide)⟩

/-- C7: the flight-category thresholds — extracted visibility 6 SM with
ceiling 3500 ft gives VFR, visibility 2 SM with ceiling 800 ft gives IFR,
and whenever the ceiling (or the visibility) cannot be extracted the
category is "Unknown", never a guessed one. -/
theorem c7_flight_category_thresholds :
    pilot_metar_flight_category "6SM BKN035" = "VFR" ∧
    pilot_metar_flight_category "2SM OVC008" = "IFR" ∧
    (∀ s : String, ceilExtract (pyUpper s).data = none →
      pilot_metar_flight_category s = "Unknown") ∧
    (∀ s : String, visExtract (pyUpper s).data = none →
      pilot_metar_flight_category s = "Unknown") := by
  refine ⟨by decide, by decide, ?_, ?_⟩
  · intro s h
    simp only [pilot_metar_flight_category, h]
    cases visExtract (pyUpper s).data <;> rfl
  · intro s h
    simp only [pilot_metar_flight_category, h]

/-- C7 witness: no ceiling group in "6SM", so the category is Unknown. -/
theorem c7_flight_category_thresholds_witness :
    ceilExtract (pyUpper "6SM").data = none ∧
    pilot_metar_flight_category "6SM" = "Unknown" :=
  ⟨by decide, c7_flight_category_thresholds.2.2.1 "6SM" (by decide)⟩

/-- One station's pass through the loop adds exactly its hazard points to
the severity score. -/
lemma stationStep_score (acc : FlightAssessment) (p : String × String) :
    (stationStep acc p).severity_score =
      acc.severity_score + stationPoints (stationFlags p.2) := by
  rcases hw : windSearch (pyUpper p.2) with _ | ⟨sp, g⟩ <;>
    simp only [stationStep, stationFlags, stationPoints, hw] <;>
    split_ifs <;> simp_all

/-- The station fold adds the sum of all stations' hazard points. -/
lemma foldl_stationStep_score (l : List (String × String))
    (acc : FlightAssessment) :
    (l.foldl stationStep acc).severity_score =
      acc.severity_score +
        (l.map (fun p => stationPoints (stationFlags p.2))).sum := by
  induction l generalizing acc with
  | nil => simp
  | cons p t ih =>
    simp only [List.foldl_cons, List.map_cons, List.sum_cons, ih,
      stationStep_score]
    omega

/-- The accumulated severity score is `scoreOfFlags` of the extracted
hazard flags. -/
lemma accumulate_score (d : WeatherData) :
    (accumulate_conditions d).severity_score =
      scoreOfFlags (d.current_conditions.map (fun p => stationFlags p.2))
        (!d.sigmets.isEmpty) (!d.airmets.isEmpty) := by
  unfold accumulate_conditions scoreOfFlags
  split_ifs <;> simp [foldl_stationStep_score, List.map_map] <;> rfl

/-- The final mapping never changes the severity score. -/
lemma finalize_score (a : FlightAssessment) :
    (finalize_assessment a).severity_score = a.severity_score := by
  unfold finalize_assessment
  split_ifs <;> rfl

/-- Hazard points never decrease when flags are weakened upward. -/
lemma stationPoints_mono {f g : Bool × Bool × Bool} (h : flag3Le f g) :
    stationPoints f ≤ stationPoints g := by
  rcases f with ⟨a, b, c⟩
  rcases g with ⟨a', b', c'⟩
  rcases h with ⟨h1, h2, h3⟩
  unfold bLe at h1 h2 h3
  unfold stationPoints
  cases a <;> cases a' <;> cases b <;> cases b' <;> cases c <;> cases c' <;>
    simp_all

/-- The summed station points are monotone in the flag lists. -/
lemma sum_points_mono {fl fl' : List (Bool × Bool × Bool)}
    (h : List.Forall₂ flag3Le fl fl') :
    (fl.map stationPoints).sum ≤ (fl'.map stationPoints).sum := by
  induction h with
  | nil => simp
  | cons hfg _ ih =>
    simp only [List.map_cons, List.sum_cons]
    exact Nat.add_le_add (stationPoints_mono hfg) ih

/-- The final mapping is the fixed step function of the score. -/
lemma finalize_step (a : FlightAssessment) :
    (7 ≤ (finalize_assessment a).severity_score →
      (finalize_assessment a).overall_status = "NO-GO" ∧
      (finalize_assessment a).confidence = "HIGH") ∧
    (4 ≤ (finalize_assessment a).severity_score ∧
        (finalize_assessment a).severity_score < 7 →
      (finalize_assessment a).overall_status = "CAUTION" ∧
      (finalize_assessment a).confidence = "MEDIUM") ∧
    (2 ≤ (finalize_assessment a).severity_score ∧
        (finalize_assessment a).severity_score < 4 →
      (finalize_assessment a).overall_status = "GO" ∧
      (finalize_assessment a).confidence = "MEDIUM") ∧
    ((finalize_assessment a).severity_score < 2 →
      (finalize_assessment a).overall_status = "GO" ∧
      (finalize_assessment a).confidence = "HIGH") := by
  unfold finalize_assessment
  split_ifs with h1 h2 h3 <;> refine ⟨?_, ?_, ?_, ?_⟩ <;> intro h <;>
    simp_all <;> omega

/-- C8: the route assessment's severity score is exactly the flag-weighted
sum (+3 severe weather, +1 IFR, +2 strong wind per station, +2 SIGMETs,
+1 AIRMETs); that sum never decreases when any hazard condition is added;
and the final status is the fixed step function of the accumulated score
(≥7 NO-GO/HIGH, 4–6 CAUTION/MEDIUM, 2–3 GO/MEDIUM, 0–1 GO/HIGH). -/
theorem c8_route_assessment_monotone_step :
    (∀ d : WeatherData, (assess_flight_conditions d).severity_score =
      scoreOfFlags (d.current_conditions.map (fun p => stationFlags p.2))
        (!d.sigmets.isEmpty) (!d.airmets.isEmpty)) ∧
    (∀ (fl fl' : List (Bool × Bool × Bool)) (sg sg' am am' : Bool),
      List.Forall₂ flag3Le fl fl' → bLe sg sg' → bLe am am' →
      scoreOfFlags fl sg am ≤ scoreOfFlags fl' sg' am') ∧
    (∀ d : WeatherData,
      (7 ≤ (assess_flight_conditions d).severity_score →
        (assess_flight_conditions d).overall_status = "NO-GO" ∧
        (assess_flight_conditions d).confidence = "HIGH") ∧
      (4 ≤ (assess_flight_conditions d).severity_score ∧
          (assess_flight_conditions d).severity_score < 7 →
        (assess_flight_conditions d).overall_status = "CAUTION" ∧
        (assess_flight_conditions d).confidence = "MEDIUM") ∧
      (2 ≤ (assess_flight_conditions d).severity_score ∧
          (assess_flight_conditions d).severity_score < 4 →
        (assess_flight_conditions d).overall_status = "GO" ∧
        (assess_flight_conditions d).confidence = "MEDIUM") ∧
      ((assess_flight_conditions d).severity_score < 2 →
        (assess_flight_conditions d).overall_status = "GO" ∧
        (assess_flight_conditions d).confidence = "HIGH")) := by
  refine ⟨?_, ?_, ?_⟩
  · intro d
    show (finalize_assessment (accumulate_conditions d)).severity_score = _
    rw [finalize_score, accumulate_score]
  · intro fl fl' sg sg' am am' hfl hsg ham
    unfold scoreOfFlags
    have h1 := sum_points_mono hfl
    have h2 : (if sg then 2 else 0) ≤ (if sg' then 2 else 0) := by
      cases sg <;> cases sg' <;> simp_all [bLe]
    have h3 : (if am then 1 else 0) ≤ (if am' then 1 else 0) := by
      cases am <;> cases am' <;> simp_all [bLe]
    exact Nat.add_le_add (Nat.add_le_add h1 h2) h3
  · intro d
    exact finalize_step (accumulate_conditions d)

/-- C8 witness: flag weakening on a concrete pair and the NO-GO mapping on
a concrete score-8 input. -/
theorem c8_route_assessment_monotone_step_witness :
    scoreOfFlags [(false, false, false)] false false ≤
      scoreOfFlags [(true, false, false)] false false ∧
    7 ≤ (assess_flight_conditions noGoExample).severity_score ∧
    (assess_flight_conditions noGoExample).overall_status = "NO-GO" ∧
    (assess_flight_conditions noGoExample).confidence = "HIGH" := by
  have hf : flag3Le (false, false, false) (true, false, false) :=
    ⟨fun _ => rfl, fun hh => hh, fun hh => hh⟩
  have hmono := c8_route_assessment_monotone_step.2.1
    [(false, false, false)] [(true, false, false)] false false false false
    (List.Forall₂.cons hf List.Forall₂.nil) (fun hh => hh) (fun hh => hh)
  have hnogo := (c8_route_assessment_monotone_step.2.2 noGoExample).1
    (by decide)
  exact ⟨hmono, by decide, hnogo.1, hnogo.2⟩

/-- The batch loop from any start index emits its results in order. -/
lemma parse_multiple_aux_length (now : String) (texts : List String) :
    ∀ base : Nat, (parse_multiple_aux now base texts).length = texts.length := by
  induction texts with
  | nil => intro base; rfl
  | cons t ts ih =>
    intro base
    simp [parse_multiple_aux, ih (base + 1)]

/-- Element `i` of the batch loop is the parse of element `i` of the input,
tagged with its one-based sequence number. -/
lemma parse_multiple_aux_get (now : String) (texts : List String) :
    ∀ (base i : Nat), (parse_multiple_aux now base texts)[i]? =
      (texts[i]?).map (fun t => addSequence (base + i + 1) (parse now t none)) := by
  induction texts with
  | nil => intro base i; simp [parse_multiple_aux]
  | cons t ts ih =>
    intro base i
    cases i with
    | zero => simp [parse_multiple_aux]
    | succ j =>
      have harith : base + 1 + j + 1 = base + (j + 1) + 1 := by omega
      simp [parse_multiple_aux, ih (base + 1) j, harith]

/-- C9: batch parsing maps each input text to exactly one result in order —
result `i` is the parse of text `i` tagged with sequence number `i + 1`,
independent of every other element — `sequence_number` is always preserved,
any entry whose parse failed internally carries the failure in its `error`
field, and concretely a good/bad pair yields two results with the bad one
error-flagged and numbered 2. -/
theorem c9_parse_multiple_isolation :
    (∀ (now : String) (texts : List String),
      (parse_multiple now texts).length = texts.length) ∧
    (∀ (now : String) (texts : List String) (i : Nat),
      (parse_multiple now texts)[i]? =
        (texts[i]?).map (fun t => addSequence (i + 1) (parse now t none))) ∧
    (∀ (n : Nat) (r : ParseOutcome), (addSequence n r).sequenceOf = some n) ∧
    (∀ (now t : String) (n : Nat) (e : PyError), parseBody t none = .error e →
      (addSequence n (parse now t none)).errorOf = some e.toMessage) ∧
    (parse_multiple "T0" [sampleNotam, badAltNotam]).map ParseOutcome.errorOf =
      [none, some "invalid literal for int() with base 10: 5,000"] ∧
    (parse_multiple "T0" [sampleNotam, badAltNotam]).map
      ParseOutcome.sequenceOf = [some 1, some 2] := by
  refine ⟨?_, ?_, ?_, ?_, by decide, by decide⟩
  · intro now texts
    exact parse_multiple_aux_length now texts 0
  · intro now texts i
    have h := parse_multiple_aux_get now texts 0 i
    simpa using h
  · intro n r
    cases r <;> rfl
  · intro now t n e h
    unfold NOTAMParser.parse
    rw [h]
    rfl

/-- C9 witness: the bad element's parse fails with the comma `ValueError`
and its batch entry is error-flagged while keeping its sequence number. -/
theorem c9_parse_multiple_isolation_witness :
    parseBody badAltNotam none =
      .error (.valueError "invalid literal for int() with base 10: 5,000") ∧
    (addSequence 2 (parse "T0" badAltNotam none)).errorOf =
      some "invalid literal for int() with base 10: 5,000" :=
  ⟨rfl,
   c9_parse_multiple_isolation.2.2.2.1 "T0" badAltNotam 2
     (.valueError "invalid literal for int() with base 10: 5,000") rfl⟩

/-- C10: every flight-impact assessment the extractor can produce is
hierarchically consistent, whatever severity, category, description and
impact score it is computed from. -/
theorem c10_flight_impact_hierarchy (severity category description : String)
    (impactScore : Nat) :
    hierConsistent
      (assess_flight_impact severity category description impactScore) =
      true := by
  unfold assess_flight_impact hierConsistent
  split_ifs <;> rfl

/-- C10 witness: hierarchical consistency at a concrete high-impact
input. -/
theorem c10_flight_impact_hierarchy_witness :
    hierConsistent (assess_flight_impact "high" "runway" "RWY CLSD" 0) =
      true :=
  c10_flight_impact_hierarchy "high" "runway" "RWY CLSD" 0

end WeatherServices
